import Mathlib

/-!
Shallow embedding of the go-otel-e2e request-instrumentation pipeline.

The Go sources embedded here are:
  * `handlers/order.go`   — `CreateOrderHandler`, `handleDBError`,
    `handlePaymentError`, `handleRequestError`, the
    `orders_processed_total` counter;
  * `handlers/inventory.go` — `CheckInventoryHandler`;
  * `logging/logging.go`  — `Logger.log` (span-event sink),
    `StructuredLogger.write` (JSON-file sink), `NewStructured`.

Randomness: every `rand.IntN n` call consumes the head `r` of an oracle
stream and yields `r % n`, which ranges over exactly the values `0..n-1`
that the Go call can produce; an exhausted stream yields `0`.  Telemetry
side effects (spans, span events, console lines, JSON file lines, the
outcome counter, and the sleeps performed) are threaded through an
explicit `World` state.
-/

namespace GoOtel

/-- Attribute values, as used by the code (`attribute.String` / `attribute.Int`). -/

inductive AttrVal where
  | str : String → AttrVal
  | int : Int → AttrVal
  deriving Repr, DecidableEq

/-- An OpenTelemetry key/value attribute. -/

structure Attr where
  key : String
  val : AttrVal
  deriving Repr, DecidableEq

/-- `attribute.String k v`. -/

def Attr.string (k v : String) : Attr := ⟨k, .str v⟩

/-- `attribute.Int k v`. -/

def Attr.int (k : String) (v : Int) : Attr := ⟨k, .int v⟩

/-- OpenTelemetry span status codes (`codes.Unset`, `codes.Ok`, `codes.Error`). -/

inductive SpanStatus where
  | unset
  | ok
  | error
  deriving Repr, DecidableEq

/-- An event attached to a span (`span.AddEvent name attrs`). -/

structure SpanEvent where
  name : String
  attrs : List Attr
  deriving Repr, DecidableEq

/-- A span: named unit of work with status, recorded errors, events, end flag. -/

structure Span where
  name : String
  status : SpanStatus := .unset
  statusMsg : String := ""
  errors : List String := []
  events : List SpanEvent := []
  ended : Bool := false
  deriving Repr, DecidableEq

/-- The span placeholder used when indexing outside the span table. -/

def noSpan : Span := { name := "" }

/-- A valid span context: the trace identifier and the index of the active
span in the world's span table (its span id). -/

structure SpanRef where
  traceId : Nat
  idx : Nat
  deriving Repr, DecidableEq

/-- A Go `context.Context` as the handlers use it: either it carries a valid
active span (`some ref`, as after the otelhttp middleware or `tracer.Start`)
or it does not (`none`, in which case `trace.SpanFromContext` yields a no-op
span with an invalid span context). -/

abbrev Ctx := Option SpanRef

/-- The trace id a child span started under `ctx` inherits (`0` stands for
the fresh trace created under an invalid parent context). -/

def ctxTraceId (ctx : Ctx) : Nat :=
  match ctx with
  | some ref => ref.traceId
  | none => 0

/-- A console fallback line (`log.Printf "[%s] %s %v" level message attrs`). -/

structure ConsoleLine where
  level : String
  message : String
  attrs : List Attr
  deriving Repr, DecidableEq

/-- One JSON line of the durable log file: level, message, attributes, and
the `trace_id`/`span_id` pair when the span context was valid. -/

structure FileEntry where
  level : String
  message : String
  attrs : List Attr
  ids : Option (Nat × Nat)
  deriving Repr, DecidableEq

/-- The observable telemetry state threaded through the handlers. -/

structure World where
  spans : List Span := []
  succCount : Nat := 0
  failCount : Nat := 0
  console : List ConsoleLine := []
  file : List FileEntry := []
  fileOpen : Bool := true
  slept : List Nat := []
  rng : List Nat := []
  deriving Repr, DecidableEq

/-- `rand.IntN n`: consume one oracle value, reduce it into `[0, n)`. -/

def randIntN (n : Nat) (w : World) : Nat × World :=
  match w.rng with
  | [] => (0, w)
  | r :: rest => (r % n, { w with rng := rest })

/-- `time.Sleep(d * time.Millisecond)`: record the slept duration. -/

def sleepMs (d : Nat) (w : World) : World :=
  { w with slept := w.slept ++ [d] }

/-- Apply `f` to the span at index `idx` (out-of-range indices are untouched). -/

def World.updateSpan (w : World) (idx : Nat) (f : Span → Span) : World :=
  { w with spans := w.spans.set idx (f (w.spans.getD idx noSpan)) }

/-- `tracer.Start ctx name`: append a fresh span to the table and return the
child context carrying it, its index, and the new world.  The child context
keeps the parent's trace id (a fresh root trace when the parent is invalid). -/

def tracerStart (w : World) (ctx : Ctx) (name : String) :
    Ctx × Nat × World :=
  (some ⟨ctxTraceId ctx, w.spans.length⟩, w.spans.length,
    { w with spans := w.spans ++ [{ name := name }] })

/-- `span.SetStatus code msg`. -/

def spanSetStatus (w : World) (idx : Nat) (st : SpanStatus) (msg : String) :
    World :=
  w.updateSpan idx (fun s => { s with status := st, statusMsg := msg })

/-- `span.RecordError err`. -/

def spanRecordError (w : World) (idx : Nat) (e : String) : World :=
  w.updateSpan idx (fun s => { s with errors := s.errors ++ [e] })

/-- `span.End()`: idempotent close. -/

def spanEnd (w : World) (idx : Nat) : World :=
  w.updateSpan idx (fun s => { s with ended := true })

/-- `trace.SpanFromContext(ctx).SetStatus st msg`: acts on the context's
active span, and is a no-op on an invalid (no-op span) context. -/

def spanFromCtxSetStatus (w : World) (ctx : Ctx) (st : SpanStatus)
    (msg : String) : World :=
  match ctx with
  | none => w
  | some ref => spanSetStatus w ref.idx st msg

/-- `Logger.log` (`logging.go`): if the context has no valid span, fall back
to a console line; otherwise append an event named `"log"` to the active
span whose attributes are `log.level`, `log.message`, then the caller's. -/

def loggerLog (w : World) (ctx : Ctx) (level message : String)
    (attrs : List Attr) : World :=
  match ctx with
  | none => { w with console := w.console ++ [⟨level, message, attrs⟩] }
  | some ref =>
      w.updateSpan ref.idx (fun s =>
        { s with events := s.events ++
            [⟨"log", Attr.string "log.level" level ::
                     Attr.string "log.message" message :: attrs⟩] })

/-- The `trace_id`/`span_id` pair `StructuredLogger.write` attaches when the
span context of `ctx` is valid. -/

def ctxIds : Ctx → Option (Nat × Nat)
  | none => none
  | some ref => some (ref.traceId, ref.idx)

/-- `StructuredLogger.write` (`logging.go`): with no encoder (file not open)
fall back to a console line; otherwise append a JSON line to the file,
carrying `trace_id`/`span_id` exactly when the span context is valid. -/

def structuredWrite (w : World) (ctx : Ctx) (level message : String)
    (attrs : List Attr) : World :=
  if w.fileOpen then
    { w with file := w.file ++ [⟨level, message, attrs, ctxIds ctx⟩] }
  else
    { w with console := w.console ++ [⟨level, message, attrs⟩] }

/-- The result of `NewStructured`: whether the file handle is usable and the
startup warnings emitted while constructing the logger. -/

structure StructuredLoggerInit where
  fileOpen : Bool
  warnings : List String
  deriving Repr, DecidableEq

/-- `NewStructured` (`logging.go`), parameterized by whether `os.OpenFile`
succeeds: on failure it logs a single `[WARN]` line and still returns a
logger (with no encoder); it never aborts startup. -/

def newStructured (openSucceeds : Bool) : StructuredLoggerInit :=
  if openSucceeds then ⟨true, []⟩
  else ⟨false, ["failed to open log file"]⟩

/-- The dual-sink call pattern used at every log site in the handlers:
`logging.DefaultLogger.<lvl>(ctx, msg, attrs...)` followed by
`logging.JSONLogger.<lvl>(ctx, msg, attrs...)`. -/

def dualLog (w : World) (ctx : Ctx) (level message : String)
    (attrs : List Attr) : World :=
  structuredWrite (loggerLog w ctx level message attrs) ctx level message attrs

/-- HTTP response bodies produced by the two handlers. -/

inductive HttpBody where
  | orderJson (status message : String)
  | inventoryJson (status message : String) (delayMs : Nat)
  | text (s : String)
  deriving Repr, DecidableEq

/-- An HTTP response: status code and body. -/

structure HttpResponse where
  statusCode : Nat
  body : HttpBody
  deriving Repr, DecidableEq

/-- `handleRequestError` (`order.go`): dual-sink Error log with stage and
reason, failure-labelled counter increment, record the error and set Error
status on the given span, then set Error status on the span active in the
supplied context. -/

def handleRequestError (w : World) (ctx : Ctx) (spanIdx : Nat)
    (message err stage : String) : World :=
  let attrs := [Attr.string "error.stage" stage, Attr.string "error.reason" err]
  let w := loggerLog w ctx "ERROR" message attrs
  let w := structuredWrite w ctx "ERROR" message attrs
  let w := { w with failCount := w.failCount + 1 }
  let w := spanRecordError w spanIdx err
  let w := spanSetStatus w spanIdx .error message
  spanFromCtxSetStatus w ctx .error message

/-- `handleDBError` (`order.go`): open a `db.insert_order` span, sleep
10–49 ms, instrument the simulated DB error through `handleRequestError`
(passing the child context), end the span, respond 500. -/

def handleDBError (w0 : World) (ctx : Ctx) : World × HttpResponse :=
  let t := tracerStart w0 ctx "db.insert_order"
  let dbCtx := t.1
  let dbIdx := t.2.1
  let r := randIntN 40 t.2.2
  let w := sleepMs (r.1 + 10) r.2
  let w := handleRequestError w dbCtx dbIdx "database operation failed"
    "simulated database constraint violation" "database"
  let w := spanEnd w dbIdx
  (w, ⟨500, .text "Internal Server Error"⟩)

/-- `handlePaymentError` (`order.go`): open a `payment.process` span,
instrument the simulated payment error through `handleRequestError`
(passing the child context), end the span, respond 500. -/

def handlePaymentError (w0 : World) (ctx : Ctx) : World × HttpResponse :=
  let t := tracerStart w0 ctx "payment.process"
  let payCtx := t.1
  let payIdx := t.2.1
  let w := handleRequestError t.2.2 payCtx payIdx "payment processing failed"
    "simulated payment provider error" "payment"
  let w := spanEnd w payIdx
  (w, ⟨500, .text "Internal Server Error"⟩)

/-- The `db.insert_order` stage shared by the success path and the
payment-failure path of `CreateOrderHandler`: open the span, sleep
50–149 ms, set status Ok, end the span. -/

def dbInsertStage (w0 : World) (ctx : Ctx) : World :=
  let t := tracerStart w0 ctx "db.insert_order"
  let r := randIntN 100 t.2.2
  let w := sleepMs (r.1 + 50) r.2
  let w := spanSetStatus w t.2.1 .ok "order record inserted"
  spanEnd w t.2.1

/-- The `payment.process` stage of the success path of `CreateOrderHandler`:
open the span, sleep 40–119 ms, set status Ok, end the span. -/

def payProcessStage (w0 : World) (ctx : Ctx) : World :=
  let t := tracerStart w0 ctx "payment.process"
  let r := randIntN 80 t.2.2
  let w := sleepMs (r.1 + 40) r.2
  let w := spanSetStatus w t.2.1 .ok "payment processed successfully"
  spanEnd w t.2.1

/-- `CreateOrderHandler` (`order.go`): validation sleep 30–79 ms; a 1-in-10
draw selects the failure path, where a further 1-in-2 draw selects the DB
failure, else the DB step succeeds (span `db.insert_order`, sleep 50–149 ms,
status Ok) and payment fails; otherwise the success path runs both stages,
increments the success counter, logs, and responds 200. -/

def CreateOrderHandler (w0 : World) (ctx : Ctx) : World × HttpResponse :=
  let rv := randIntN 50 w0
  let w := sleepMs (rv.1 + 30) rv.2
  let r1 := randIntN 10 w
  if r1.1 = 0 then
    let r2 := randIntN 2 r1.2
    if r2.1 = 0 then
      handleDBError r2.2 ctx
    else
      handlePaymentError (dbInsertStage r2.2 ctx) ctx
  else
    let w := payProcessStage (dbInsertStage r1.2 ctx) ctx
    let w := { w with succCount := w.succCount + 1 }
    let ro := randIntN 1000 w
    let w := spanFromCtxSetStatus ro.2 ctx .ok "order created successfully"
    let w := dualLog w ctx "INFO" "Order created successfully"
      [Attr.int "order.id" ro.1]
    (w, ⟨200, .orderJson "success" "Order created successfully"⟩)

/-- `CheckInventoryHandler` (`inventory.go`): draw `rand.IntN(601) + 200`,
sleep that many milliseconds, dual-sink Info log with the delay attribute,
respond 200 with `{status, message, delay_ms}`. -/

def CheckInventoryHandler (w0 : World) (ctx : Ctx) : World × HttpResponse :=
  let r := randIntN 601 w0
  let delay := r.1 + 200
  let w := sleepMs delay r.2
  let w := dualLog w ctx "INFO" "Inventory checked successfully"
    [Attr.int "inventory.check.delay_ms" (delay : Int)]
  (w, ⟨200, .inventoryJson "success" "Inventory checked successfully" delay⟩)

/-- Run `n` consecutive `createOrder` requests against the shared world
(the randomness oracle and the counter persist across requests). -/

def runN : Nat → World → Ctx → World
  | 0, w, _ => w
  | n + 1, w, ctx => runN n (CreateOrderHandler w ctx).1 ctx

/-- The spans a run starting from `w` has added to the span table. -/

def addedSpans (w : World) (r : World × HttpResponse) : List Span :=
  r.1.spans.drop w.spans.length

/-! ### Closed forms for the pipeline pieces -/

/-- The `db.insert_order` span as the success / payment-failure paths leave it. -/

def dbOkSpan : Span :=
  { name := "db.insert_order", status := .ok,
    statusMsg := "order record inserted", ended := true }

/-- The `payment.process` span as the success path leaves it. -/

def payOkSpan : Span :=
  { name := "payment.process", status := .ok,
    statusMsg := "payment processed successfully", ended := true }

/-- The span event `Logger.log` attaches for an ERROR record with stage and
reason attributes. -/

def errEvent (message stage reason : String) : SpanEvent :=
  ⟨"log", [Attr.string "log.level" "ERROR", Attr.string "log.message" message,
           Attr.string "error.stage" stage, Attr.string "error.reason" reason]⟩

/-- The caller-supplied attributes `handleRequestError` logs. -/

def errAttrs (stage reason : String) : List Attr :=
  [Attr.string "error.stage" stage, Attr.string "error.reason" reason]

/-- The failed `db.insert_order` span as `handleDBError` leaves it. -/

def dbFailSpan : Span :=
  { name := "db.insert_order", status := .error,
    statusMsg := "database operation failed",
    errors := ["simulated database constraint violation"],
    events := [errEvent "database operation failed" "database"
      "simulated database constraint violation"],
    ended := true }

/-- The failed `payment.process` span as `handlePaymentError` leaves it. -/

def payFailSpan : Span :=
  { name := "payment.process", status := .error,
    statusMsg := "payment processing failed",
    errors := ["simulated payment provider error"],
    events := [errEvent "payment processing failed" "payment"
      "simulated payment provider error"],
    ended := true }

/-- The generic 500 response `http.Error` produces on both failure paths. -/

def resp500 : HttpResponse := ⟨500, .text "Internal Server Error"⟩

/-- The span event `Logger.log` attaches for an INFO record. -/

def infoEvent (message : String) (attrs : List Attr) : SpanEvent :=
  ⟨"log", Attr.string "log.level" "INFO" :: Attr.string "log.message" message :: attrs⟩

/-- How the success path finishes the root request span: Ok status, then the
INFO span event from the dual-sink log call. -/

def rootFinish (orderID : Nat) (s : Span) : Span :=
  { s with
      status := .ok
      statusMsg := "order created successfully"
      events := s.events ++
        [infoEvent "Order created successfully" [Attr.int "order.id" (orderID : Int)]] }

/-- How `CheckInventoryHandler`'s log call extends the root request span. -/

def invFinish (delay : Nat) (s : Span) : Span :=
  { s with
      events := s.events ++ [infoEvent "Inventory checked successfully"
        [Attr.int "inventory.check.delay_ms" (delay : Int)]] }

/-- Observable db-failure outcome of one `createOrder` request: 500 response
and a single added `db.insert_order` span carrying the simulated DB error. -/
def DBFailureOutcome (w : World) (ctx : Ctx) : Prop :=
  (CreateOrderHandler w ctx).2 = resp500 ∧
  (addedSpans w (CreateOrderHandler w ctx)).map Span.name = ["db.insert_order"] ∧
  (addedSpans w (CreateOrderHandler w ctx)).map Span.errors
    = [["simulated database constraint violation"]]

/-- Observable payment-failure outcome: 500 response, an added error-free
`db.insert_order` span, then an added `payment.process` span carrying the
simulated payment error. -/
def PaymentFailureOutcome (w : World) (ctx : Ctx) : Prop :=
  (CreateOrderHandler w ctx).2 = resp500 ∧
  (addedSpans w (CreateOrderHandler w ctx)).map Span.name
    = ["db.insert_order", "payment.process"] ∧
  (addedSpans w (CreateOrderHandler w ctx)).map Span.errors
    = [[], ["simulated payment provider error"]]

/-- Observable success outcome: 200 response with the success JSON body and
both added stage spans error-free. -/
def SuccessOutcome (w : World) (ctx : Ctx) : Prop :=
  (CreateOrderHandler w ctx).2
    = ⟨200, .orderJson "success" "Order created successfully"⟩ ∧
  (addedSpans w (CreateOrderHandler w ctx)).map Span.errors = [[], []]

/-! ### Supporting lemmas -/

theorem randIntN_eq (n : Nat) (w : World) :
    randIntN n w = (w.rng.headD 0 % n, { w with rng := w.rng.tail }) := by
  rcases w with ⟨sp, sc, fc, co, fi, fo, sl, rng⟩
  cases rng <;> rfl

theorem getD_append_self (l : List Span) (a d : Span) :
    (l ++ [a]).getD l.length d = a := by
  simp [List.getD_append_right]

theorem set_append_self (l : List Span) (a b : Span) :
    (l ++ [a]).set l.length b = l ++ [b] := by
  simp [List.set_append]

theorem getD_append_lt (l1 l2 : List Span) (i : Nat) (d : Span)
    (h : i < l1.length) : (l1 ++ l2).getD i d = l1.getD i d := by
  simp [List.getD_eq_getElem?_getD, List.getElem?_append, h]

theorem set_append_lt (l1 l2 : List Span) (i : Nat) (a : Span)
    (h : i < l1.length) : (l1 ++ l2).set i a = l1.set i a ++ l2 := by
  simp [List.set_append, h]

theorem headD_eq (l : List Nat) (d : Nat) : l.headD d = l[0]?.getD d := by
  cases l <;> simp

theorem getElem?_tail (l : List Nat) (n : Nat) : l.tail[n]? = l[n + 1]? := by
  cases l <;> simp

theorem tail4_eq_drop4 (l : List Nat) : l.tail.tail.tail.tail = l.drop 4 := by
  rcases l with _ | ⟨a, _ | ⟨b, _ | ⟨c, _ | ⟨d, r⟩⟩⟩⟩ <;> rfl

theorem tail5_eq_drop5 (l : List Nat) : l.tail.tail.tail.tail.tail = l.drop 5 := by
  rcases l with _ | ⟨a, _ | ⟨b, _ | ⟨c, _ | ⟨d, _ | ⟨e, r⟩⟩⟩⟩⟩ <;> rfl

theorem drop_len_set_append (l : List Span) (i : Nat) (a : Span)
    (l2 : List Span) : ((l.set i a) ++ l2).drop l.length = l2 := by
  have h : l.length = (l.set i a).length := (List.length_set l i a).symm
  rw [h, List.drop_left]

theorem dbInsertStage_eq (w : World) (ctx : Ctx) :
    dbInsertStage w ctx =
      { w with
          spans := w.spans ++ [dbOkSpan],
          slept := w.slept ++ [w.rng.headD 0 % 100 + 50],
          rng := w.rng.tail } := by
  simp [dbInsertStage, spanEnd, spanSetStatus, World.updateSpan, tracerStart, sleepMs,
    randIntN_eq, getD_append_self, set_append_self, dbOkSpan]

theorem payProcessStage_eq (w : World) (ctx : Ctx) :
    payProcessStage w ctx =
      { w with
          spans := w.spans ++ [payOkSpan],
          slept := w.slept ++ [w.rng.headD 0 % 80 + 40],
          rng := w.rng.tail } := by
  simp [payProcessStage, spanEnd, spanSetStatus, World.updateSpan, tracerStart, sleepMs,
    randIntN_eq, getD_append_self, set_append_self, payOkSpan]

theorem handleDBError_eq (w : World) (ctx : Ctx) :
    handleDBError w ctx =
      ({ w with
          spans := w.spans ++ [dbFailSpan],
          failCount := w.failCount + 1,
          file := if w.fileOpen
            then w.file ++ [⟨"ERROR", "database operation failed",
                errAttrs "database" "simulated database constraint violation",
                some (ctxTraceId ctx, w.spans.length)⟩]
            else w.file,
          console := if w.fileOpen
            then w.console
            else w.console ++ [⟨"ERROR", "database operation failed",
                errAttrs "database" "simulated database constraint violation"⟩],
          slept := w.slept ++ [w.rng.headD 0 % 40 + 10],
          rng := w.rng.tail }, resp500) := by
  simp only [handleDBError, handleRequestError, tracerStart, sleepMs, randIntN_eq,
    spanEnd, spanRecordError, spanSetStatus, spanFromCtxSetStatus, loggerLog,
    structuredWrite, World.updateSpan, ctxIds]
  by_cases h : w.fileOpen <;>
    simp [h, getD_append_self, set_append_self, dbFailSpan, errEvent, errAttrs, resp500]

theorem handlePaymentError_eq (w : World) (ctx : Ctx) :
    handlePaymentError w ctx =
      ({ w with
          spans := w.spans ++ [payFailSpan],
          failCount := w.failCount + 1,
          file := if w.fileOpen
            then w.file ++ [⟨"ERROR", "payment processing failed",
                errAttrs "payment" "simulated payment provider error",
                some (ctxTraceId ctx, w.spans.length)⟩]
            else w.file,
          console := if w.fileOpen
            then w.console
            else w.console ++ [⟨"ERROR", "payment processing failed",
                errAttrs "payment" "simulated payment provider error"⟩] },
      resp500) := by
  simp only [handlePaymentError, handleRequestError, tracerStart, randIntN_eq,
    spanEnd, spanRecordError, spanSetStatus, spanFromCtxSetStatus, loggerLog,
    structuredWrite, World.updateSpan, ctxIds]
  by_cases h : w.fileOpen <;>
    simp [h, getD_append_self, set_append_self, payFailSpan, errEvent, errAttrs, resp500]

/-- Closed form of the success path of `CreateOrderHandler` under a valid
root request context. -/
theorem createOrder_success_eq (w : World) (t i : Nat)
    (h1 : w.rng.getD 1 0 % 10 ≠ 0) (hi : i < w.spans.length) :
    CreateOrderHandler w (some ⟨t, i⟩) =
      ({ w with
          spans := (w.spans.set i
              (rootFinish (w.rng.getD 4 0 % 1000) (w.spans.getD i noSpan)))
            ++ [dbOkSpan, payOkSpan]
          succCount := w.succCount + 1
          file := if w.fileOpen
            then w.file ++ [⟨"INFO", "Order created successfully",
                [Attr.int "order.id" (w.rng.getD 4 0 % 1000 : Int)], some (t, i)⟩]
            else w.file
          console := if w.fileOpen then w.console
            else w.console ++ [⟨"INFO", "Order created successfully",
                [Attr.int "order.id" (w.rng.getD 4 0 % 1000 : Int)]⟩]
          slept := w.slept ++ [w.rng.headD 0 % 50 + 30,
            w.rng.getD 2 0 % 100 + 50, w.rng.getD 3 0 % 80 + 40]
          rng := w.rng.drop 5 },
      ⟨200, .orderJson "success" "Order created successfully"⟩) := by
  have h1' : ¬ w.rng[1]?.getD 0 % 10 = 0 := by
    simpa [List.getD_eq_getElem?_getD] using h1
  have hcond : (randIntN 10 (sleepMs ((randIntN 50 w).1 + 30) (randIntN 50 w).2)).1 ≠ 0 := by
    simp [randIntN_eq, sleepMs, headD_eq, getElem?_tail, h1']
  simp only [CreateOrderHandler, if_neg hcond]
  rw [randIntN_eq, randIntN_eq]
  simp only [sleepMs]
  rw [dbInsertStage_eq, payProcessStage_eq]
  simp only [randIntN_eq, spanFromCtxSetStatus, spanSetStatus, dualLog, loggerLog,
    structuredWrite, World.updateSpan, ctxIds]
  by_cases hfo : w.fileOpen <;>
    simp [hfo, List.getD_eq_getElem?_getD, headD_eq, getElem?_tail, tail5_eq_drop5,
      List.getElem?_append, List.getElem?_set_self, List.length_set, List.set_set,
      set_append_lt, hi, rootFinish, infoEvent, Attr.int, Attr.string]

/-- Closed form of the DB-failure path of `CreateOrderHandler`. -/
theorem createOrder_db_eq (w : World) (ctx : Ctx)
    (h1 : w.rng.getD 1 0 % 10 = 0) (h2 : w.rng.getD 2 0 % 2 = 0) :
    CreateOrderHandler w ctx =
      ({ w with
          spans := w.spans ++ [dbFailSpan]
          failCount := w.failCount + 1
          file := if w.fileOpen
            then w.file ++ [⟨"ERROR", "database operation failed",
                errAttrs "database" "simulated database constraint violation",
                some (ctxTraceId ctx, w.spans.length)⟩]
            else w.file
          console := if w.fileOpen then w.console
            else w.console ++ [⟨"ERROR", "database operation failed",
                errAttrs "database" "simulated database constraint violation"⟩]
          slept := w.slept ++ [w.rng.headD 0 % 50 + 30, w.rng.getD 3 0 % 40 + 10]
          rng := w.rng.drop 4 }, resp500) := by
  have h1' : w.rng[1]?.getD 0 % 10 = 0 := by
    simpa [List.getD_eq_getElem?_getD] using h1
  have h2' : w.rng[2]?.getD 0 % 2 = 0 := by
    simpa [List.getD_eq_getElem?_getD] using h2
  have hcond : (randIntN 10 (sleepMs ((randIntN 50 w).1 + 30) (randIntN 50 w).2)).1 = 0 := by
    simp [randIntN_eq, sleepMs, headD_eq, getElem?_tail, h1']
  have hcond2 :
      (randIntN 2 (randIntN 10 (sleepMs ((randIntN 50 w).1 + 30) (randIntN 50 w).2)).2).1
        = 0 := by
    simp [randIntN_eq, sleepMs, headD_eq, getElem?_tail, h2']
  simp only [CreateOrderHandler, if_pos hcond, if_pos hcond2]
  rw [handleDBError_eq]
  simp only [randIntN_eq, sleepMs]
  by_cases hfo : w.fileOpen <;>
    simp [hfo, List.getD_eq_getElem?_getD, headD_eq, getElem?_tail, tail4_eq_drop4]

/-- Closed form of the payment-failure path of `CreateOrderHandler`. -/
theorem createOrder_pay_eq (w : World) (ctx : Ctx)
    (h1 : w.rng.getD 1 0 % 10 = 0) (h2 : w.rng.getD 2 0 % 2 ≠ 0) :
    CreateOrderHandler w ctx =
      ({ w with
          spans := w.spans ++ [dbOkSpan, payFailSpan]
          failCount := w.failCount + 1
          file := if w.fileOpen
            then w.file ++ [⟨"ERROR", "payment processing failed",
                errAttrs "payment" "simulated payment provider error",
                some (ctxTraceId ctx, w.spans.length + 1)⟩]
            else w.file
          console := if w.fileOpen then w.console
            else w.console ++ [⟨"ERROR", "payment processing failed",
                errAttrs "payment" "simulated payment provider error"⟩]
          slept := w.slept ++ [w.rng.headD 0 % 50 + 30, w.rng.getD 3 0 % 100 + 50]
          rng := w.rng.drop 4 }, resp500) := by
  have h1' : w.rng[1]?.getD 0 % 10 = 0 := by
    simpa [List.getD_eq_getElem?_getD] using h1
  have h2' : ¬ w.rng[2]?.getD 0 % 2 = 0 := by
    simpa [List.getD_eq_getElem?_getD] using h2
  have hcond : (randIntN 10 (sleepMs ((randIntN 50 w).1 + 30) (randIntN 50 w).2)).1 = 0 := by
    simp [randIntN_eq, sleepMs, headD_eq, getElem?_tail, h1']
  have hcond2 :
      ¬ (randIntN 2 (randIntN 10 (sleepMs ((randIntN 50 w).1 + 30) (randIntN 50 w).2)).2).1
        = 0 := by
    simp [randIntN_eq, sleepMs, headD_eq, getElem?_tail, h2']
  simp only [CreateOrderHandler, if_pos hcond, if_neg hcond2]
  rw [dbInsertStage_eq, handlePaymentError_eq]
  simp only [randIntN_eq, sleepMs]
  by_cases hfo : w.fileOpen <;>
    simp [hfo, List.getD_eq_getElem?_getD, headD_eq, getElem?_tail, tail4_eq_drop4]

/-- Closed form of `CheckInventoryHandler` under a valid root context. -/
theorem checkInventory_eq (w : World) (t i : Nat) (hi : i < w.spans.length) :
    CheckInventoryHandler w (some ⟨t, i⟩) =
      ({ w with
          spans := w.spans.set i
            (invFinish (w.rng.headD 0 % 601 + 200) (w.spans.getD i noSpan))
          file := if w.fileOpen
            then w.file ++ [⟨"INFO", "Inventory checked successfully",
                [Attr.int "inventory.check.delay_ms" (w.rng.headD 0 % 601 + 200 : Int)],
                some (t, i)⟩]
            else w.file
          console := if w.fileOpen then w.console
            else w.console ++ [⟨"INFO", "Inventory checked successfully",
                [Attr.int "inventory.check.delay_ms" (w.rng.headD 0 % 601 + 200 : Int)]⟩]
          slept := w.slept ++ [w.rng.headD 0 % 601 + 200]
          rng := w.rng.tail },
      ⟨200, .inventoryJson "success" "Inventory checked successfully"
        (w.rng.headD 0 % 601 + 200)⟩) := by
  simp only [CheckInventoryHandler, randIntN_eq, sleepMs, dualLog, loggerLog,
    structuredWrite, World.updateSpan, ctxIds]
  by_cases hfo : w.fileOpen <;>
    simp [hfo, List.getD_eq_getElem?_getD, hi, invFinish, infoEvent,
      Attr.int, Attr.string]

theorem succCount_dualLog (w : World) (ctx : Ctx) (level msg : String) (attrs : List Attr) :
    (dualLog w ctx level msg attrs).succCount = w.succCount := by
  unfold dualLog structuredWrite loggerLog
  cases ctx <;> split <;> rfl

theorem failCount_dualLog (w : World) (ctx : Ctx) (level msg : String) (attrs : List Attr) :
    (dualLog w ctx level msg attrs).failCount = w.failCount := by
  unfold dualLog structuredWrite loggerLog
  cases ctx <;> split <;> rfl

theorem succCount_spanFromCtx (w : World) (ctx : Ctx) (st : SpanStatus) (m : String) :
    (spanFromCtxSetStatus w ctx st m).succCount = w.succCount := by
  cases ctx <;> rfl

theorem failCount_spanFromCtx (w : World) (ctx : Ctx) (st : SpanStatus) (m : String) :
    (spanFromCtxSetStatus w ctx st m).failCount = w.failCount := by
  cases ctx <;> rfl

theorem createOrder_step_counts (w : World) (ctx : Ctx) :
    (CreateOrderHandler w ctx).1.succCount + (CreateOrderHandler w ctx).1.failCount
      = w.succCount + w.failCount + 1 := by
  by_cases hb1 : w.rng.getD 1 0 % 10 = 0
  · by_cases hb2 : w.rng.getD 2 0 % 2 = 0
    · rw [createOrder_db_eq w ctx hb1 hb2]
      simp [Nat.add_assoc]
    · rw [createOrder_pay_eq w ctx hb1 hb2]
      simp [Nat.add_assoc]
  · have h1' : ¬ w.rng[1]?.getD 0 % 10 = 0 := by
      simpa [List.getD_eq_getElem?_getD] using hb1
    have hcond : (randIntN 10 (sleepMs ((randIntN 50 w).1 + 30) (randIntN 50 w).2)).1 ≠ 0 := by
      simp [randIntN_eq, sleepMs, headD_eq, getElem?_tail, h1']
    simp only [CreateOrderHandler, if_neg hcond]
    rw [randIntN_eq, randIntN_eq]
    simp only [sleepMs]
    rw [dbInsertStage_eq, payProcessStage_eq]
    simp only [randIntN_eq]
    simp only [succCount_dualLog, failCount_dualLog, succCount_spanFromCtx,
      failCount_spanFromCtx]
    omega

theorem runN_counts (n : Nat) (w : World) (ctx : Ctx) :
    (runN n w ctx).succCount + (runN n w ctx).failCount
      = w.succCount + w.failCount + n := by
  induction n generalizing w with
  | zero => simp [runN]
  | succ k ih =>
      simp only [runN]
      rw [ih]
      have := createOrder_step_counts w ctx
      omega


/-! ### Claim theorems -/

/-- Claim C1: for every `createOrder` request (with the middleware-provided
root request span active), exactly one of {success, db-failure,
payment-failure} occurs; the outcome counter is incremented exactly once for
the request, under the success label on the success path and the failure
label on either failure path; and after `n` requests the success and failure
totals sum to the initial total plus `n`. -/
theorem createOrder_exactly_one_outcome_and_counter (w : World) (t i n : Nat)
    (hi : i < w.spans.length) :
    ((SuccessOutcome w (some ⟨t, i⟩) ∧ ¬ DBFailureOutcome w (some ⟨t, i⟩) ∧
        ¬ PaymentFailureOutcome w (some ⟨t, i⟩) ∧
        (CreateOrderHandler w (some ⟨t, i⟩)).1.succCount = w.succCount + 1 ∧
        (CreateOrderHandler w (some ⟨t, i⟩)).1.failCount = w.failCount) ∨
      (DBFailureOutcome w (some ⟨t, i⟩) ∧ ¬ SuccessOutcome w (some ⟨t, i⟩) ∧
        ¬ PaymentFailureOutcome w (some ⟨t, i⟩) ∧
        (CreateOrderHandler w (some ⟨t, i⟩)).1.failCount = w.failCount + 1 ∧
        (CreateOrderHandler w (some ⟨t, i⟩)).1.succCount = w.succCount) ∨
      (PaymentFailureOutcome w (some ⟨t, i⟩) ∧ ¬ SuccessOutcome w (some ⟨t, i⟩) ∧
        ¬ DBFailureOutcome w (some ⟨t, i⟩) ∧
        (CreateOrderHandler w (some ⟨t, i⟩)).1.failCount = w.failCount + 1 ∧
        (CreateOrderHandler w (some ⟨t, i⟩)).1.succCount = w.succCount)) ∧
    (runN n w (some ⟨t, i⟩)).succCount + (runN n w (some ⟨t, i⟩)).failCount
      = w.succCount + w.failCount + n := by
  refine ⟨?_, runN_counts n w (some ⟨t, i⟩)⟩
  by_cases hb1 : w.rng.getD 1 0 % 10 = 0
  · by_cases hb2 : w.rng.getD 2 0 % 2 = 0
    · refine Or.inr (Or.inl ?_)
      simp [DBFailureOutcome, SuccessOutcome, PaymentFailureOutcome, addedSpans,
        createOrder_db_eq w _ hb1 hb2, List.drop_left, resp500, dbFailSpan]
    · refine Or.inr (Or.inr ?_)
      simp [DBFailureOutcome, SuccessOutcome, PaymentFailureOutcome, addedSpans,
        createOrder_pay_eq w _ hb1 hb2, List.drop_left, resp500, dbOkSpan, payFailSpan]
  · refine Or.inl ?_
    simp [DBFailureOutcome, SuccessOutcome, PaymentFailureOutcome, addedSpans,
      createOrder_success_eq w t i hb1 hi, drop_len_set_append, resp500,
      dbOkSpan, payOkSpan]

/-- Witness for C1: at a concrete world, three requests add three to the
counter totals. -/
theorem createOrder_exactly_one_outcome_and_counter_witness :
    0 < ([{ name := "req" }] : List Span).length ∧
    (runN 3 { spans := [{ name := "req" }], rng := [0, 3, 10, 20, 42, 0, 0, 0, 5, 0, 0, 1, 60] } (some ⟨1, 0⟩)).succCount +
      (runN 3 { spans := [{ name := "req" }], rng := [0, 3, 10, 20, 42, 0, 0, 0, 5, 0, 0, 1, 60] } (some ⟨1, 0⟩)).failCount
      = 0 + 0 + 3 :=
  ⟨by decide,
    (createOrder_exactly_one_outcome_and_counter
      { spans := [{ name := "req" }], rng := [0, 3, 10, 20, 42, 0, 0, 0, 5, 0, 0, 1, 60] } 1 0 3 (by decide)).2⟩

/-- Claim C2: after the validation-delay draw, the handler draws one uniform
outcome over 10 buckets of which exactly 1 yields the failure path (500) and
9 the success path (200); on the failure path a second two-way draw picks the
DB failure on residue 0 and the payment failure on residue 1, while the
success path does not depend on that coin. -/
theorem createOrder_uniform_buckets_and_fair_coin (w : World) (t i v b c : Nat)
    (rest : List Nat) (hrng : w.rng = v :: b :: c :: rest)
    (hi : i < w.spans.length) :
    (((Finset.range 10).filter (fun x =>
        (CreateOrderHandler { w with rng := v :: x :: c :: rest }
          (some ⟨t, i⟩)).2.statusCode = 500)).card = 1 ∧
     ((Finset.range 10).filter (fun x =>
        (CreateOrderHandler { w with rng := v :: x :: c :: rest }
          (some ⟨t, i⟩)).2.statusCode = 200)).card = 9) ∧
    (b % 10 = 0 →
      (c % 2 = 0 → DBFailureOutcome w (some ⟨t, i⟩)) ∧
      (c % 2 = 1 → PaymentFailureOutcome w (some ⟨t, i⟩))) ∧
    (b % 10 ≠ 0 → SuccessOutcome w (some ⟨t, i⟩)) := by
  have hstatus : ∀ x : Nat,
      (CreateOrderHandler { w with rng := v :: x :: c :: rest }
        (some ⟨t, i⟩)).2.statusCode = if x % 10 = 0 then 500 else 200 := by
    intro x
    by_cases hx : x % 10 = 0
    · rw [if_pos hx]
      by_cases hc : c % 2 = 0
      · rw [createOrder_db_eq _ _ (by simpa [List.getD_cons_succ] using hx)
          (by simpa [List.getD_cons_succ] using hc)]
        simp [resp500]
      · rw [createOrder_pay_eq _ _ (by simpa [List.getD_cons_succ] using hx)
          (by simpa [List.getD_cons_succ] using hc)]
        simp [resp500]
    · rw [if_neg hx]
      rw [createOrder_success_eq _ t i (by simpa [List.getD_cons_succ] using hx)
        (by simpa using hi)]
  refine ⟨⟨?_, ?_⟩, ?_, ?_⟩
  · have hset : ((Finset.range 10).filter (fun x =>
        (CreateOrderHandler { w with rng := v :: x :: c :: rest }
          (some ⟨t, i⟩)).2.statusCode = 500)) = {0} := by
      ext x
      simp only [Finset.mem_filter, Finset.mem_range, Finset.mem_singleton, hstatus]
      constructor
      · rintro ⟨hx10, hx⟩
        by_cases h0 : x % 10 = 0
        · omega
        · simp [h0] at hx
      · rintro rfl
        simp
    rw [hset]
    rfl
  · have hset : ((Finset.range 10).filter (fun x =>
        (CreateOrderHandler { w with rng := v :: x :: c :: rest }
          (some ⟨t, i⟩)).2.statusCode = 200)) = (Finset.range 10).erase 0 := by
      ext x
      simp only [Finset.mem_filter, Finset.mem_range, Finset.mem_erase, hstatus]
      constructor
      · rintro ⟨hx10, hx⟩
        by_cases h0 : x % 10 = 0
        · simp [h0] at hx
        · exact ⟨by omega, hx10⟩
      · rintro ⟨hx0, hx10⟩
        have hne : ¬ x % 10 = 0 := by omega
        simp [hne, hx10]
    rw [hset, Finset.card_erase_of_mem (by simp), Finset.card_range]
  · intro hb
    constructor
    · intro hc
      have hb' : w.rng.getD 1 0 % 10 = 0 := by simp [hrng, List.getD_cons_succ, hb]
      have hc' : w.rng.getD 2 0 % 2 = 0 := by simp [hrng, List.getD_cons_succ, hc]
      simp [DBFailureOutcome, addedSpans, createOrder_db_eq w _ hb' hc',
        List.drop_left, resp500, dbFailSpan]
    · intro hc
      have hb' : w.rng.getD 1 0 % 10 = 0 := by simp [hrng, List.getD_cons_succ, hb]
      have hc' : ¬ w.rng.getD 2 0 % 2 = 0 := by simp [hrng, List.getD_cons_succ, hc]
      simp [PaymentFailureOutcome, addedSpans, createOrder_pay_eq w _ hb' hc',
        List.drop_left, resp500, dbOkSpan, payFailSpan]
  · intro hb
    have hb' : ¬ w.rng.getD 1 0 % 10 = 0 := by simp [hrng, List.getD_cons_succ, hb]
    simp [SuccessOutcome, addedSpans, createOrder_success_eq w t i hb' hi,
      drop_len_set_append, dbOkSpan, payOkSpan]

/-- Witness for C2: a concrete run with bucket 0 and coin 0 produces the
db-failure outcome. -/
theorem createOrder_uniform_buckets_and_fair_coin_witness :
    DBFailureOutcome { spans := [{ name := "req" }], rng := [0, 0, 0, 5] }
      (some ⟨1, 0⟩) :=
  ((createOrder_uniform_buckets_and_fair_coin
      { spans := [{ name := "req" }], rng := [0, 0, 0, 5] } 1 0 0 0 0 [5]
      rfl (by decide)).2.1 (by decide)).1 (by decide)

/-- Claim C3 (code bug): on a concrete input forcing the DB-failure branch
the handler opens `db.insert_order`, sleeps within 10–49 ms (here 15), records
the simulated constraint violation, sets that span's status to Error, ends it,
logs ERROR with stage `database`, increments the failure counter once, and
responds with the generic 500 — but the root request span is left with status
Unset: `handleRequestError` receives the child span's context, so its final
`trace.SpanFromContext(ctx).SetStatus(Error, ...)` re-marks the
`db.insert_order` span instead of the request span the code's own comment
says it marks. -/
theorem createOrder_db_failure_leaves_root_span_unset :
    (CreateOrderHandler
        { spans := [{ name := "POST /createOrder" }], rng := [0, 0, 0, 5] }
        (some ⟨1, 0⟩)).2 = resp500 ∧
    (CreateOrderHandler
        { spans := [{ name := "POST /createOrder" }], rng := [0, 0, 0, 5] }
        (some ⟨1, 0⟩)).1.spans.getD 1 noSpan = dbFailSpan ∧
    (CreateOrderHandler
        { spans := [{ name := "POST /createOrder" }], rng := [0, 0, 0, 5] }
        (some ⟨1, 0⟩)).1.slept = [30, 15] ∧
    (CreateOrderHandler
        { spans := [{ name := "POST /createOrder" }], rng := [0, 0, 0, 5] }
        (some ⟨1, 0⟩)).1.failCount = 1 ∧
    (CreateOrderHandler
        { spans := [{ name := "POST /createOrder" }], rng := [0, 0, 0, 5] }
        (some ⟨1, 0⟩)).1.succCount = 0 ∧
    (CreateOrderHandler
        { spans := [{ name := "POST /createOrder" }], rng := [0, 0, 0, 5] }
        (some ⟨1, 0⟩)).1.file = [⟨"ERROR", "database operation failed",
      errAttrs "database" "simulated database constraint violation", some (1, 1)⟩] ∧
    ((CreateOrderHandler
        { spans := [{ name := "POST /createOrder" }], rng := [0, 0, 0, 5] }
        (some ⟨1, 0⟩)).1.spans.getD 0 noSpan).status = SpanStatus.unset := by
  decide

/-- Claim C4 (code bug): on a concrete input forcing the payment-failure
branch, the `db.insert_order` span is first closed successfully (sleep
50–149 ms, here 110, status Ok) and only then is `payment.process` opened and
instrumented with the simulated payment error, an ERROR log with stage
`payment` is emitted, the failure counter is incremented once, and the
generic 500 is returned — but the root request span is left with status
Unset, for the same child-context slip as in the DB branch. -/
theorem createOrder_payment_failure_leaves_root_span_unset :
    (CreateOrderHandler
        { spans := [{ name := "POST /createOrder" }], rng := [0, 0, 1, 60] }
        (some ⟨1, 0⟩)).2 = resp500 ∧
    (CreateOrderHandler
        { spans := [{ name := "POST /createOrder" }], rng := [0, 0, 1, 60] }
        (some ⟨1, 0⟩)).1.spans.getD 1 noSpan = dbOkSpan ∧
    (CreateOrderHandler
        { spans := [{ name := "POST /createOrder" }], rng := [0, 0, 1, 60] }
        (some ⟨1, 0⟩)).1.spans.getD 2 noSpan = payFailSpan ∧
    (CreateOrderHandler
        { spans := [{ name := "POST /createOrder" }], rng := [0, 0, 1, 60] }
        (some ⟨1, 0⟩)).1.slept = [30, 110] ∧
    (CreateOrderHandler
        { spans := [{ name := "POST /createOrder" }], rng := [0, 0, 1, 60] }
        (some ⟨1, 0⟩)).1.failCount = 1 ∧
    (CreateOrderHandler
        { spans := [{ name := "POST /createOrder" }], rng := [0, 0, 1, 60] }
        (some ⟨1, 0⟩)).1.file = [⟨"ERROR", "payment processing failed",
      errAttrs "payment" "simulated payment provider error", some (1, 2)⟩] ∧
    ((CreateOrderHandler
        { spans := [{ name := "POST /createOrder" }], rng := [0, 0, 1, 60] }
        (some ⟨1, 0⟩)).1.spans.getD 0 noSpan).status = SpanStatus.unset := by
  decide

/-- Claim C5 counterexample: with the log file open and no active span, the
dual write still appends the record to the JSON file (without identifiers),
so the record does not appear only via the console fallback. -/
theorem log_without_span_still_reaches_file_sink :
    (dualLog { fileOpen := true } none "INFO" "no-span message" []).file
      = [⟨"INFO", "no-span message", [], none⟩] ∧
    (dualLog { fileOpen := true } none "INFO" "no-span message" []).console
      = [⟨"INFO", "no-span message", []⟩] := by
  decide

/-- Claim C5 (amended): with a valid active span, the record carries the
matching trace/span identifiers in both sinks (the span event lands on the
span the context designates, and the file line carries the same id pair) and
no console line is written; with no valid span the record carries no
identifiers, the trace-attached sink degrades to a console line, and the
durable sink still writes the file line without identifiers when the file is
open, itself degrading to a second console line only when it is not. -/
theorem dualLog_identifier_propagation (w : World) (t i : Nat)
    (level msg : String) (attrs : List Attr) (hi : i < w.spans.length) :
    (w.fileOpen = true →
      (dualLog w (some ⟨t, i⟩) level msg attrs).file
        = w.file ++ [⟨level, msg, attrs, some (t, i)⟩] ∧
      ((dualLog w (some ⟨t, i⟩) level msg attrs).spans.getD i noSpan).events
        = (w.spans.getD i noSpan).events
          ++ [⟨"log", Attr.string "log.level" level ::
                Attr.string "log.message" msg :: attrs⟩] ∧
      (dualLog w (some ⟨t, i⟩) level msg attrs).console = w.console) ∧
    ((dualLog w none level msg attrs).spans = w.spans ∧
      (w.fileOpen = true →
        (dualLog w none level msg attrs).file = w.file ++ [⟨level, msg, attrs, none⟩] ∧
        (dualLog w none level msg attrs).console = w.console ++ [⟨level, msg, attrs⟩]) ∧
      (w.fileOpen = false →
        (dualLog w none level msg attrs).file = w.file ∧
        (dualLog w none level msg attrs).console
          = w.console ++ [⟨level, msg, attrs⟩, ⟨level, msg, attrs⟩])) := by
  unfold dualLog structuredWrite loggerLog World.updateSpan ctxIds
  refine ⟨fun hfo => ?_, ?_, fun hfo => ?_, fun hfo => ?_⟩
  · simp [hfo, List.getD_eq_getElem?_getD, List.getElem?_set_self, hi]
  · split <;> rfl
  · simp [hfo]
  · simp [hfo]

/-- Witness for C5 (amended): concrete instance with one span and the file
sink open. -/
theorem dualLog_identifier_propagation_witness :
    0 < ([{ name := "req" }] : List Span).length ∧
    (dualLog { spans := [{ name := "req" }], fileOpen := true } none
        "INFO" "m" []).spans = [{ name := "req" }] :=
  ⟨by decide,
    (dualLog_identifier_propagation
      { spans := [{ name := "req" }], fileOpen := true } 1 0 "INFO" "m" []
      (by decide)).2.1⟩

/-- Claim C6 counterexample: drawing 600 from the oracle makes
`checkInventory` sleep and report a delay of 800 ms, outside the claimed
200–799 ms range. -/
theorem checkInventory_delay_can_reach_800 :
    (CheckInventoryHandler { rng := [600] } none).2
      = ⟨200, .inventoryJson "success" "Inventory checked successfully" 800⟩ ∧
    (CheckInventoryHandler { rng := [600] } none).1.slept = [800] ∧
    799 < 800 := by
  decide

/-- Claim C6 (amended): the simulated delay of `checkInventory` is drawn
uniformly from 200 to 800 ms inclusive (601 values); the request always
succeeds with a 200 response carrying status, message and `delay_ms`, and an
Info record with the `inventory.check.delay_ms` attribute is emitted to the
span-event and file sinks. -/
theorem checkInventory_delay_range_and_response (w : World) (t i : Nat)
    (hi : i < w.spans.length) (hfo : w.fileOpen = true) :
    200 ≤ w.rng.headD 0 % 601 + 200 ∧ w.rng.headD 0 % 601 + 200 ≤ 800 ∧
    (CheckInventoryHandler w (some ⟨t, i⟩)).1.slept
      = w.slept ++ [w.rng.headD 0 % 601 + 200] ∧
    (CheckInventoryHandler w (some ⟨t, i⟩)).1.file
      = w.file ++ [⟨"INFO", "Inventory checked successfully",
          [Attr.int "inventory.check.delay_ms" (w.rng.headD 0 % 601 + 200 : Int)],
          some (t, i)⟩] ∧
    ((CheckInventoryHandler w (some ⟨t, i⟩)).1.spans.getD i noSpan).events
      = (w.spans.getD i noSpan).events
        ++ [infoEvent "Inventory checked successfully"
            [Attr.int "inventory.check.delay_ms" (w.rng.headD 0 % 601 + 200 : Int)]] ∧
    (CheckInventoryHandler w (some ⟨t, i⟩)).2
      = ⟨200, .inventoryJson "success" "Inventory checked successfully"
          (w.rng.headD 0 % 601 + 200)⟩ := by
  have hd : w.rng.headD 0 % 601 ≤ 600 := Nat.le_of_lt_succ (Nat.mod_lt _ (by omega))
  rw [checkInventory_eq w t i hi]
  refine ⟨by omega, by omega, by simp, by simp [hfo], ?_, rfl⟩
  simp [invFinish, List.getD_eq_getElem?_getD, List.getElem?_set_self, hi]

/-- Witness for C6 (amended): a concrete call reporting delay 800. -/
theorem checkInventory_delay_range_and_response_witness :
    0 < ([{ name := "req" }] : List Span).length ∧
    (CheckInventoryHandler { spans := [{ name := "req" }], rng := [600] }
        (some ⟨1, 0⟩)).2
      = ⟨200, .inventoryJson "success" "Inventory checked successfully" 800⟩ :=
  ⟨by decide,
    (checkInventory_delay_range_and_response
      { spans := [{ name := "req" }], rng := [600] } 1 0 (by decide)
      rfl).2.2.2.2.2⟩

/-- Claim C7: a log call with a context carrying a valid active span appends
exactly one event named "log" to that span, whose attribute list begins with
`log.level` then `log.message`, followed by the caller's attributes in their
given order; no other span, and neither the console nor the file, changes. -/
theorem loggerLog_appends_one_ordered_event (w : World) (t i : Nat)
    (level msg : String) (attrs : List Attr) (hi : i < w.spans.length) :
    (loggerLog w (some ⟨t, i⟩) level msg attrs).spans.getD i noSpan
      = { w.spans.getD i noSpan with
            events := (w.spans.getD i noSpan).events
              ++ [⟨"log", Attr.string "log.level" level ::
                    Attr.string "log.message" msg :: attrs⟩] } ∧
    (∀ j, j ≠ i →
      (loggerLog w (some ⟨t, i⟩) level msg attrs).spans.getD j noSpan
        = w.spans.getD j noSpan) ∧
    (loggerLog w (some ⟨t, i⟩) level msg attrs).console = w.console ∧
    (loggerLog w (some ⟨t, i⟩) level msg attrs).file = w.file := by
  unfold loggerLog World.updateSpan
  refine ⟨?_, ?_, rfl, rfl⟩
  · simp [List.getD_eq_getElem?_getD, List.getElem?_set_self, hi]
  · intro j hj
    simp [List.getD_eq_getElem?_getD, List.getElem?_set_ne, hj.symm]

/-- Witness for C7: concrete one-span world. -/
theorem loggerLog_appends_one_ordered_event_witness :
    0 < ([{ name := "req" }] : List Span).length ∧
    (loggerLog { spans := [{ name := "req" }] } (some ⟨1, 0⟩)
        "INFO" "m" [Attr.int "k" 7]).spans.getD 0 noSpan
      = { name := "req", events := [⟨"log", [Attr.string "log.level" "INFO",
          Attr.string "log.message" "m", Attr.int "k" 7]⟩] } :=
  ⟨by decide,
    (loggerLog_appends_one_ordered_event { spans := [{ name := "req" }] } 1 0
      "INFO" "m" [Attr.int "k" 7] (by decide)).1⟩

/-- Claim C8: when the log file cannot be opened, `NewStructured` emits
exactly one startup warning and still returns a logger (startup is not
aborted), and every subsequent write on a file-less logger leaves the file
untouched and appends the same single console line that the trace-attached
sink's fallback produces. -/
theorem structuredLogger_console_fallback_on_open_failure (w : World)
    (ctx : Ctx) (level msg : String) (attrs : List Attr)
    (hw : w.fileOpen = false) :
    (newStructured false).warnings = ["failed to open log file"] ∧
    (newStructured false).fileOpen = false ∧
    (newStructured true).warnings = [] ∧
    (structuredWrite w ctx level msg attrs).file = w.file ∧
    (structuredWrite w ctx level msg attrs).console
      = w.console ++ [⟨level, msg, attrs⟩] ∧
    (loggerLog w none level msg attrs).console
      = w.console ++ [⟨level, msg, attrs⟩] := by
  unfold newStructured structuredWrite loggerLog
  simp [hw]

/-- Witness for C8: concrete file-less world. -/
theorem structuredLogger_console_fallback_on_open_failure_witness :
    ({ fileOpen := false } : World).fileOpen = false ∧
    (structuredWrite { fileOpen := false } none "ERROR" "m" []).file = [] :=
  ⟨rfl,
    (structuredLogger_console_fallback_on_open_failure { fileOpen := false }
      none "ERROR" "m" [] rfl).2.2.2.1⟩

/-- Claim C9: `checkInventory` never touches the outcome counter; the only
increments are on the terminal branches of the `createOrder` pipeline — the
two failure handlers add one failure each, the shared stage helpers add
nothing, and a whole `createOrder` request adds exactly one to the totals. -/
theorem outcomeCounter_only_createOrder_terminal_branches (w : World)
    (ctx : Ctx) :
    (CheckInventoryHandler w ctx).1.succCount = w.succCount ∧
    (CheckInventoryHandler w ctx).1.failCount = w.failCount ∧
    (CreateOrderHandler w ctx).1.succCount + (CreateOrderHandler w ctx).1.failCount
      = w.succCount + w.failCount + 1 ∧
    (handleDBError w ctx).1.failCount = w.failCount + 1 ∧
    (handleDBError w ctx).1.succCount = w.succCount ∧
    (handlePaymentError w ctx).1.failCount = w.failCount + 1 ∧
    (handlePaymentError w ctx).1.succCount = w.succCount ∧
    (dbInsertStage w ctx).succCount = w.succCount ∧
    (dbInsertStage w ctx).failCount = w.failCount ∧
    (payProcessStage w ctx).succCount = w.succCount ∧
    (payProcessStage w ctx).failCount = w.failCount := by
  refine ⟨?_, ?_, createOrder_step_counts w ctx, ?_, ?_, ?_, ?_, ?_, ?_, ?_, ?_⟩
  · simp only [CheckInventoryHandler, randIntN_eq, sleepMs]
    simp [succCount_dualLog]
  · simp only [CheckInventoryHandler, randIntN_eq, sleepMs]
    simp [failCount_dualLog]
  · rw [handleDBError_eq]
  · rw [handleDBError_eq]
  · rw [handlePaymentError_eq]
  · rw [handlePaymentError_eq]
  · rw [dbInsertStage_eq]
  · rw [dbInsertStage_eq]
  · rw [payProcessStage_eq]
  · rw [payProcessStage_eq]

/-- Claim C10: one `checkInventory` request draws a single delay value and
uses it consistently: the slept duration, the `inventory.check.delay_ms`
attribute in the span event and in the JSON file line, and the `delay_ms`
field of the response body are all that same value. -/
theorem checkInventory_single_draw_used_consistently (w : World) (t i : Nat)
    (hi : i < w.spans.length) (hfo : w.fileOpen = true) :
    ∃ d : Nat, (CheckInventoryHandler w (some ⟨t, i⟩)).1.slept = w.slept ++ [d] ∧
      ((CheckInventoryHandler w (some ⟨t, i⟩)).1.spans.getD i noSpan).events
        = (w.spans.getD i noSpan).events
          ++ [infoEvent "Inventory checked successfully"
              [Attr.int "inventory.check.delay_ms" (d : Int)]] ∧
      (CheckInventoryHandler w (some ⟨t, i⟩)).1.file
        = w.file ++ [⟨"INFO", "Inventory checked successfully",
            [Attr.int "inventory.check.delay_ms" (d : Int)], some (t, i)⟩] ∧
      (CheckInventoryHandler w (some ⟨t, i⟩)).2
        = ⟨200, .inventoryJson "success" "Inventory checked successfully" d⟩ := by
  refine ⟨w.rng.headD 0 % 601 + 200, ?_, ?_, ?_, ?_⟩
  · rw [checkInventory_eq w t i hi]
  · rw [checkInventory_eq w t i hi]
    simp only [invFinish, infoEvent]
    simp [List.getD_eq_getElem?_getD, List.getElem?_set_self, hi]
  · rw [checkInventory_eq w t i hi]
    simp only [hfo, if_true]
    push_cast
    ring_nf
  · rw [checkInventory_eq w t i hi]

/-- Witness for C10: a concrete call, with the shared value visible in the
response. -/
theorem checkInventory_single_draw_used_consistently_witness :
    0 < ([{ name := "req" }] : List Span).length ∧
    ∃ d : Nat, (CheckInventoryHandler { spans := [{ name := "req" }], rng := [100] }
        (some ⟨1, 0⟩)).2
      = ⟨200, .inventoryJson "success" "Inventory checked successfully" d⟩ :=
  ⟨by decide, by
    obtain ⟨d, _, _, _, h4⟩ := checkInventory_single_draw_used_consistently
      { spans := [{ name := "req" }], rng := [100] } 1 0 (by decide) rfl
    exact ⟨d, h4⟩⟩

end GoOtel
